import Mathlib

/-!
Verification of the Venstar thermostat integration
(`custom_components/venstar`): a shallow embedding of the polling
coordinator (`__init__.py`), the climate adapter (`climate.py`), the sensor
adapters (`sensor.py`) and the alert binary-sensor adapter
(`binary_sensor.py`), together with theorems settling the specification
claims about connection state, platform forwarding, enum translation,
command forwarding, identifier derivation and read-only property access.
-/

namespace Venstar

/-! ### Constants

Constants from `const.py`, plus the hub constants imported from the
smart-home platform (`homeassistant.const` and the climate component
constants), whose published string values are fixed by that external
library. -/

def DOMAIN : String := "venstar"

def ENTRY_CONNECTION_STATE : String := "connection_state"

/-- Hub climate-mode constants (external library string values). -/
def HVAC_MODE_OFF : String := "off"

def HVAC_MODE_HEAT : String := "heat"

def HVAC_MODE_COOL : String := "cool"

def HVAC_MODE_AUTO : String := "auto"

def CURRENT_HVAC_OFF : String := "off"

def CURRENT_HVAC_IDLE : String := "idle"

def CURRENT_HVAC_HEAT : String := "heating"

def CURRENT_HVAC_COOL : String := "cooling"

def FAN_ON : String := "on"

def FAN_AUTO : String := "auto"

def STATE_ON : String := "on"

def PRESET_AWAY : String := "away"

def PRESET_NONE : String := "none"

def TEMP_FAHRENHEIT : String := "°F"

def TEMP_CELSIUS : String := "°C"

/-- From `const.py`. -/
def HOLD_MODE_OFF : String := "off"

/-- From `const.py`. -/
def HOLD_MODE_TEMPERATURE : String := "temperature"

/-- From `const.py`. -/
def TEMPUNITS_F : Nat := 0

/-- From `const.py`. -/
def TEMPUNITS_C : Nat := 1

/-- From `const.py`: attribute-kind key for battery readings. -/
def SENSOR_BATTERY : String := "battery"

/-- From `const.py`: attribute-kind key for humidity readings. -/
def SENSOR_HUMIDITY : String := "hum"

/-- From `const.py`: attribute-kind key skipped by the sensor setup loop. -/
def SENSOR_ID : String := "id"

/-- From `const.py`: attribute-kind key for temperature readings. -/
def SENSOR_TEMPERATURE : String := "temp"

/-- The keys of the `SENSOR_ATTRIBUTES` table in `const.py`. -/
def SENSOR_ATTRIBUTES_KEYS : List String :=
  [SENSOR_BATTERY, SENSOR_HUMIDITY, SENSOR_ID, SENSOR_TEMPERATURE]

/-- Modelled from the spec: the vendor-enum constants `VENSTAR_MODE_OFF`,
`VENSTAR_MODE_HEAT`, `VENSTAR_MODE_COOL`, `VENSTAR_MODE_AUTO` named by the
adapter modules are missing from the `const.py` present in the snapshot;
the spec describes them as the device client's HVAC mode enum
(off/heat/cool/auto), a fixed table of distinct vendor values. -/
def VENSTAR_MODE_OFF : Nat := 0

def VENSTAR_MODE_HEAT : Nat := 1

def VENSTAR_MODE_COOL : Nat := 2

def VENSTAR_MODE_AUTO : Nat := 3

/-- Modelled from the spec: the vendor thermostat state enum
(idle/heating/cooling) referenced by `climate.py`. -/
def VENSTAR_STATE_IDLE : Nat := 0

def VENSTAR_STATE_HEATING : Nat := 1

def VENSTAR_STATE_COOLING : Nat := 2

/-- Modelled from the spec: the vendor fan enum (auto/on). -/
def VENSTAR_FAN_AUTO : Nat := 0

def VENSTAR_FAN_ON : Nat := 1

/-- Modelled from the spec: the vendor away enum (home/away). -/
def VENSTAR_AWAY_HOME : Nat := 0

def VENSTAR_AWAY_AWAY : Nat := 1

/-- Modelled from the spec: the vendor schedule enum (disabled/enabled). -/
def VENSTAR_SCHEDULE_DISABLED : Nat := 0

def VENSTAR_SCHEDULE_ENABLED : Nat := 1

/-- Modelled from the spec: the vendor Fahrenheit constant
`VENSTAR_TEMPUNITS_F`, matching `TEMPUNITS_F = 0` in `const.py`. -/
def VENSTAR_TEMPUNITS_F : Nat := TEMPUNITS_F

/-! ### Polling coordinator (`__init__.py`) -/

/-- `PLATFORMS` as defined at line 48 of `__init__.py`; the entry setup
loop forwards entry setup exactly for these components. -/
def PLATFORMS : List String := ["climate", "sensor"]

/-- The data-relevant part of the per-entry dictionary
`hass.data[DOMAIN][entry.entry_id]`: the `ENTRY_CONNECTION_STATE` value.
The remaining keys (`ENTRY_API`, `ENTRY_COORDINATOR`,
`ENTRY_UNDO_UPDATE_LISTENER`) hold object references, not data. -/
structure EntryData where
  connection_state : Bool
  deriving DecidableEq, Repr

/-- The entry dictionary as initialised at lines 123 to 128 of
`__init__.py`: `ENTRY_CONNECTION_STATE` starts out `False`. -/
def initial_entry_data : EntryData := { connection_state := false }

/-- The observable outcome of one poll cycle's two client calls
(`api.update_info` then `api.update_sensors`) under the timeout:
both results delivered, a timeout, or an exception raised by a call. -/
inductive PollOutcome where
  | results (info_success sensor_success : Bool)
  | timeout
  | exception (msg : String)
  deriving DecidableEq, Repr

/-- `async_update_data` from `__init__.py` (lines 98 to 113), as a function
from the poll outcome to the written `ENTRY_CONNECTION_STATE` value and the
raised error, `some msg` standing for a raised `UpdateFailed`.
On a falsy result the code raises `UpdateFailed` inside the `try` block;
the broad `except Exception` clause catches and re-raises it (wrapping the
message through `repr`), still leaving the state `False`. -/
def async_update_data : PollOutcome → EntryData × Option String
  | PollOutcome.results info_success sensor_success =>
      if !info_success || !sensor_success then
        ({ connection_state := false }, some "unable to update data")
      else
        ({ connection_state := true }, none)
  | PollOutcome.timeout =>
      ({ connection_state := false }, some "timeout occurred while updating data")
  | PollOutcome.exception msg =>
      ({ connection_state := false }, some msg)

/-! ### Device client snapshot

The in-memory attribute surface of the `VenstarColorTouch` client object as
the adapters read it: one field per attribute that the adapter modules
access via `getattr`, plus `get_sensor` for the auxiliary-sensor readings
(the client library owns how these are populated). -/

/-- A dynamically-typed value as returned by the client's `get_sensor`:
the sensor adapter keeps it only when it is numeric. -/
inductive PyValue where
  | vNone
  | vInt (n : Int)
  | vStr (s : String)
  deriving DecidableEq, Repr

structure VenstarClient where
  name : String
  model : String
  mode : Nat
  state : Nat
  fan : Nat
  fanstate : Bool
  tempunits : Nat
  away : Nat
  schedule : Nat
  heattemp : Int
  cooltemp : Int
  hum_setpoint : Int
  get_sensor : String → String → PyValue

/-! ### Climate adapter read paths (`climate.py`) -/

/-- `VenstarThermostat.hvac_mode` (climate.py lines 248 to 257) as a
function of the client's `mode` attribute. -/
def hvac_mode (mode : Nat) : String :=
  if mode = VENSTAR_MODE_HEAT then HVAC_MODE_HEAT
  else if mode = VENSTAR_MODE_COOL then HVAC_MODE_COOL
  else if mode = VENSTAR_MODE_AUTO then HVAC_MODE_AUTO
  else HVAC_MODE_OFF

/-- `VenstarThermostat.temperature_unit` (climate.py lines 221 to 226) as a
function of the client's `tempunits` attribute. -/
def temperature_unit (tempunits : Nat) : String :=
  if tempunits = VENSTAR_TEMPUNITS_F then TEMP_FAHRENHEIT
  else TEMP_CELSIUS

/-- `VenstarThermostat.hvac_action` (climate.py lines 259 to 268). -/
def hvac_action (state : Nat) : String :=
  if state = VENSTAR_STATE_IDLE then CURRENT_HVAC_IDLE
  else if state = VENSTAR_STATE_HEATING then CURRENT_HVAC_HEAT
  else if state = VENSTAR_STATE_COOLING then CURRENT_HVAC_COOL
  else CURRENT_HVAC_OFF

/-! State-passing forms of the read-only properties: each property returns
its value together with the client object after the access, so that the
frame property (the adapter never mutates the snapshot) is a statement
about the second component.  The bodies mirror the `getattr` reads of
`climate.py` and `sensor.py`. -/

def name_prop (c : VenstarClient) : String × VenstarClient :=
  (c.name, c)

def hvac_mode_prop (c : VenstarClient) : String × VenstarClient :=
  (hvac_mode c.mode, c)

def hvac_action_prop (c : VenstarClient) : String × VenstarClient :=
  (hvac_action c.state, c)

def temperature_unit_prop (c : VenstarClient) : String × VenstarClient :=
  (temperature_unit c.tempunits, c)

/-- `VenstarThermostat.fan_mode` (climate.py lines 270 to 275). -/
def fan_mode_prop (c : VenstarClient) : String × VenstarClient :=
  (if c.fan = VENSTAR_FAN_ON then FAN_ON else FAN_AUTO, c)

/-- `VenstarThermostat.target_temperature` (climate.py lines 285 to 292). -/
def target_temperature_prop (c : VenstarClient) : Option Int × VenstarClient :=
  (if c.mode = VENSTAR_MODE_HEAT then some c.heattemp
   else if c.mode = VENSTAR_MODE_COOL then some c.cooltemp
   else none, c)

/-- `VenstarThermostat.target_temperature_low` (climate.py lines 294 to 299). -/
def target_temperature_low_prop (c : VenstarClient) : Option Int × VenstarClient :=
  (if c.mode = VENSTAR_MODE_AUTO then some c.heattemp else none, c)

/-- `VenstarThermostat.target_temperature_high` (climate.py lines 301 to 306). -/
def target_temperature_high_prop (c : VenstarClient) : Option Int × VenstarClient :=
  (if c.mode = VENSTAR_MODE_AUTO then some c.cooltemp else none, c)

/-- `VenstarThermostat.preset_mode` (climate.py lines 323 to 330). -/
def preset_mode_prop (c : VenstarClient) : String × VenstarClient :=
  (if c.away = VENSTAR_AWAY_AWAY then PRESET_AWAY
   else if c.schedule = VENSTAR_SCHEDULE_DISABLED then HOLD_MODE_TEMPERATURE
   else PRESET_NONE, c)

/-- `VenstarSensor.state` (sensor.py lines 126 to 133): the reading is kept
only when the client returns a numeric value. -/
def sensor_state_prop (c : VenstarClient) (sensor attr : String) :
    Option Int × VenstarClient :=
  (match c.get_sensor sensor attr with
   | PyValue.vInt n => some n
   | _ => none, c)

/-! ### Climate adapter write paths (`climate.py`) -/

/-- Modelled from the spec: `MODE_MAP`, imported by `climate.py` from
`const.py` but missing from the `const.py` present in the snapshot; the
spec describes it as the fixed mapping table from hub HVAC-mode values to
vendor mode values. -/
def MODE_MAP (m : String) : Option Nat :=
  if m = HVAC_MODE_HEAT then some VENSTAR_MODE_HEAT
  else if m = HVAC_MODE_COOL then some VENSTAR_MODE_COOL
  else if m = HVAC_MODE_AUTO then some VENSTAR_MODE_AUTO
  else if m = HVAC_MODE_OFF then some VENSTAR_MODE_OFF
  else none

/-- One call to a client mutator, with the arguments forwarded to it. -/
inductive MutatorCall where
  | setMode (m : Nat)
  | setFan (f : Nat)
  | setHumSetpoint (h : Int)
  | setAway (a : Nat)
  | setSchedule (s : Nat)
  | setSetpoints (heat cool : Option Int)
  deriving DecidableEq, Repr

/-- The client mutators as oracles: each returns the success boolean the
device client would report for that call. -/
structure ClientMutators where
  set_mode : Nat → Bool
  set_fan : Nat → Bool
  set_hum_setpoint : Int → Bool
  set_away : Nat → Bool
  set_schedule : Nat → Bool
  set_setpoints : Option Int → Option Int → Bool

/-- Observable result of one adapter write method: the overall success
value the method computes, whether it logged a failure message, and the
sequence of mutator calls it issued. -/
structure CommandResult where
  success : Bool
  loggedFailure : Bool
  calls : List MutatorCall
  deriving DecidableEq, Repr

/-- `VenstarThermostat._set_operation_mode` (climate.py lines 337 to 350):
maps the hub mode to the vendor mode (everything unrecognised, including
`off`, maps to the vendor off value), calls `set_mode`, and logs a failure
when the call returns false. -/
def set_operation_mode (cm : ClientMutators) (operation_mode : String) :
    CommandResult :=
  let target :=
    if operation_mode = HVAC_MODE_HEAT then VENSTAR_MODE_HEAT
    else if operation_mode = HVAC_MODE_COOL then VENSTAR_MODE_COOL
    else if operation_mode = HVAC_MODE_AUTO then VENSTAR_MODE_AUTO
    else VENSTAR_MODE_OFF
  let success := cm.set_mode target
  { success := success, loggedFailure := !success,
    calls := [MutatorCall.setMode target] }

/-- `VenstarThermostat.set_fan_mode` (climate.py lines 396 to 404). -/
def set_fan_mode (cm : ClientMutators) (fan_mode : String) : CommandResult :=
  let target := if fan_mode = STATE_ON then VENSTAR_FAN_ON else VENSTAR_FAN_AUTO
  let success := cm.set_fan target
  { success := success, loggedFailure := !success,
    calls := [MutatorCall.setFan target] }

/-- `VenstarThermostat.set_hvac_mode` (climate.py lines 406 to 408):
delegates to `_set_operation_mode`. -/
def set_hvac_mode (cm : ClientMutators) (m : String) : CommandResult :=
  set_operation_mode cm m

/-- `VenstarThermostat.set_humidity` (climate.py lines 410 to 415). -/
def set_humidity (cm : ClientMutators) (humidity : Int) : CommandResult :=
  let success := cm.set_hum_setpoint humidity
  { success := success, loggedFailure := !success,
    calls := [MutatorCall.setHumSetpoint humidity] }

/-- `VenstarThermostat.set_preset_mode` (climate.py lines 417 to 432).
The `and` between `set_away` and `set_schedule` short-circuits, so
`set_schedule` is only called when `set_away` succeeded.  An unrecognised
preset logs an unknown-hold-mode error, sets success to false (calling no
mutator), and therefore also logs the failure message. -/
def set_preset_mode (cm : ClientMutators) (preset_mode : String) :
    CommandResult :=
  if preset_mode = PRESET_AWAY then
    let s := cm.set_away VENSTAR_AWAY_AWAY
    { success := s, loggedFailure := !s,
      calls := [MutatorCall.setAway VENSTAR_AWAY_AWAY] }
  else if preset_mode = HOLD_MODE_TEMPERATURE then
    let s1 := cm.set_away VENSTAR_AWAY_HOME
    if s1 then
      let s2 := cm.set_schedule VENSTAR_SCHEDULE_DISABLED
      { success := s2, loggedFailure := !s2,
        calls := [MutatorCall.setAway VENSTAR_AWAY_HOME,
                  MutatorCall.setSchedule VENSTAR_SCHEDULE_DISABLED] }
    else
      { success := false, loggedFailure := true,
        calls := [MutatorCall.setAway VENSTAR_AWAY_HOME] }
  else if preset_mode = PRESET_NONE then
    let s1 := cm.set_away VENSTAR_AWAY_HOME
    if s1 then
      let s2 := cm.set_schedule VENSTAR_SCHEDULE_ENABLED
      { success := s2, loggedFailure := !s2,
        calls := [MutatorCall.setAway VENSTAR_AWAY_HOME,
                  MutatorCall.setSchedule VENSTAR_SCHEDULE_ENABLED] }
    else
      { success := false, loggedFailure := true,
        calls := [MutatorCall.setAway VENSTAR_AWAY_HOME] }
  else
    { success := false, loggedFailure := true, calls := [] }

/-- Python truthiness of the `hvac_mode` keyword argument in
`set_temperature`: absent (`None`) and the empty string are falsy. -/
def op_truthy : Option String → Bool
  | none => false
  | some s => s != ""

/-- The mode the setpoint phase of `set_temperature` branches on:
`MODE_MAP.get(operation_mode, getattr(client, VENSTAR_MODE))`, where an
absent or unmapped operation mode falls back to the client's current mode
attribute. -/
def effective_mode (c : VenstarClient) (op : Option String) : Nat :=
  (op.bind MODE_MAP).getD c.mode

/-- The setpoint phase of `set_temperature` (climate.py lines 365 to 394):
in heat mode it forwards the requested temperature together with the
client's current cool setpoint; in cool mode the client's current heat
setpoint together with the requested temperature; in auto mode the low and
high bounds; in any other mode it calls no mutator and fails (logging an
unsupported-mode error).  Returns the success value and the calls made. -/
def temp_phase (c : VenstarClient) (cm : ClientMutators) (op : Option String)
    (temp_low temp_high temperature : Option Int) : Bool × List MutatorCall :=
  if effective_mode c op = VENSTAR_MODE_HEAT then
    (cm.set_setpoints temperature (some c.cooltemp),
     [MutatorCall.setSetpoints temperature (some c.cooltemp)])
  else if effective_mode c op = VENSTAR_MODE_COOL then
    (cm.set_setpoints (some c.heattemp) temperature,
     [MutatorCall.setSetpoints (some c.heattemp) temperature])
  else if effective_mode c op = VENSTAR_MODE_AUTO then
    (cm.set_setpoints temp_low temp_high,
     [MutatorCall.setSetpoints temp_low temp_high])
  else
    (false, [])

/-- `VenstarThermostat.set_temperature` (climate.py lines 352 to 394):
when a truthy `hvac_mode` argument maps to a mode other than the client's
current one, `_set_operation_mode` runs first and the setpoint phase is
skipped when it fails (its failure already logged); otherwise the setpoint
phase runs and a failure is logged when it returns false. -/
def set_temperature (c : VenstarClient) (cm : ClientMutators)
    (op : Option String) (temp_low temp_high temperature : Option Int) :
    CommandResult :=
  if op_truthy op && (op.bind MODE_MAP != some c.mode) then
    let r := set_operation_mode cm (op.getD "")
    if r.success then
      let p := temp_phase c cm op temp_low temp_high temperature
      { success := p.1, loggedFailure := !p.1, calls := r.calls ++ p.2 }
    else
      { success := false, loggedFailure := true, calls := r.calls }
  else
    let p := temp_phase c cm op temp_low temp_high temperature
    { success := p.1, loggedFailure := !p.1, calls := p.2 }

/-! ### Availability checks (`climate.py`, `sensor.py`, `binary_sensor.py`) -/

/-- `VenstarThermostat.available` (climate.py lines 205 to 210): exactly
the `ENTRY_CONNECTION_STATE` boolean of the entry dictionary. -/
def thermostat_available (d : EntryData) : Bool :=
  d.connection_state

/-- `VenstarSensor.available` (sensor.py lines 105 to 113): the state is
not `None` and the connection-state boolean holds. -/
def sensor_available (d : EntryData) (state : Option Int) : Bool :=
  state.isSome && d.connection_state

/-- `VenstarRuntimeSensor.available` (sensor.py lines 188 to 196). -/
def runtime_sensor_available (d : EntryData) (state : Option Int) : Bool :=
  state.isSome && d.connection_state

/-- `VenstarAlertSensor.available` (binary_sensor.py lines 78 to 86); the
binary sensor's state is `None` exactly when `is_on` is. -/
def alert_sensor_available (d : EntryData) (is_on : Option Bool) : Bool :=
  is_on.isSome && d.connection_state

/-! ### Sensor identifier derivation (`sensor.py`) -/

/-- Python `str.replace` applied with a single-character pattern, as in
`self._sensor.replace(' ', '_')`: every space becomes an underscore. -/
def replace_space_underscore (s : String) : String :=
  String.mk (s.data.map fun ch => if ch = ' ' then '_' else ch)

/-- `VenstarSensor.unique_id` (sensor.py lines 86 to 89): the entry
identifier (config entry unique id or entry id), then the sensor name and
the attribute kind, spaces replaced by underscores, joined by hyphens. -/
def sensor_unique_id (pfx sensorName attr : String) : String :=
  pfx ++ "-" ++ replace_space_underscore sensorName ++ "-"
    ++ replace_space_underscore attr

/-! ### Concrete instances used to evaluate the definitions -/

/-- A mutator oracle whose calls all succeed. -/
def all_true_mutators : ClientMutators :=
  { set_mode := fun _ => true
    set_fan := fun _ => true
    set_hum_setpoint := fun _ => true
    set_away := fun _ => true
    set_schedule := fun _ => true
    set_setpoints := fun _ _ => true }

/-- A mutator oracle whose calls all fail. -/
def all_false_mutators : ClientMutators :=
  { set_mode := fun _ => false
    set_fan := fun _ => false
    set_hum_setpoint := fun _ => false
    set_away := fun _ => false
    set_schedule := fun _ => false
    set_setpoints := fun _ _ => false }

/-- A concrete client snapshot in heat mode. -/
def sample_client : VenstarClient :=
  { name := "Thermostat"
    model := "ColorTouch"
    mode := VENSTAR_MODE_HEAT
    state := VENSTAR_STATE_IDLE
    fan := VENSTAR_FAN_AUTO
    fanstate := false
    tempunits := TEMPUNITS_F
    away := VENSTAR_AWAY_HOME
    schedule := VENSTAR_SCHEDULE_ENABLED
    heattemp := 68
    cooltemp := 75
    hum_setpoint := 30
    get_sensor := fun _ _ => PyValue.vNone }

/-- The sample client switched to cool mode. -/
def sample_client_cool : VenstarClient :=
  { sample_client with mode := VENSTAR_MODE_COOL }

/-! ### Claim theorems -/

/-- C1: the `ENTRY_CONNECTION_STATE` boolean written by a poll cycle is
true exactly when both `update_info` and `update_sensors` returned truthy
with no timeout or exception; it is false in the initial entry data, and
every failing poll cycle writes false. -/
theorem c1_connection_state_invariant :
    initial_entry_data.connection_state = false ∧
    ∀ o : PollOutcome,
      (async_update_data o).1.connection_state = true ↔
        o = PollOutcome.results true true := by
  refine ⟨rfl, ?_⟩
  intro o
  cases o with
  | results i s => cases i <;> cases s <;> simp [async_update_data]
  | timeout => simp [async_update_data]
  | exception m => simp [async_update_data]

/-- Witness for C1 at the fully successful poll outcome. -/
theorem c1_connection_state_invariant_witness :
    initial_entry_data.connection_state = false ∧
    (async_update_data (PollOutcome.results true true)).1.connection_state
      = true :=
  ⟨c1_connection_state_invariant.1,
   (c1_connection_state_invariant.2 (PollOutcome.results true true)).mpr rfl⟩

/-- C2: `async_update_data` raises `UpdateFailed` exactly on the failing
outcomes (timeout, exception, or a falsy result from either call); any
raising cycle leaves the connection-state boolean false, and the fully
successful cycle raises nothing and sets it true. -/
theorem c2_update_failed_iff_cycle_fails :
    (∀ o : PollOutcome,
      (async_update_data o).2 ≠ none ↔ o ≠ PollOutcome.results true true) ∧
    (∀ o : PollOutcome, (async_update_data o).2 ≠ none →
      (async_update_data o).1.connection_state = false) ∧
    async_update_data (PollOutcome.results true true)
      = ({ connection_state := true }, none) := by
  refine ⟨?_, ?_, rfl⟩
  · intro o
    cases o with
    | results i s => cases i <;> cases s <;> simp [async_update_data]
    | timeout => simp [async_update_data]
    | exception m => simp [async_update_data]
  · intro o
    cases o with
    | results i s => cases i <;> cases s <;> simp [async_update_data]
    | timeout => simp [async_update_data]
    | exception m => simp [async_update_data]

/-- Witness for C2 at the timeout outcome. -/
theorem c2_update_failed_iff_cycle_fails_witness :
    (async_update_data PollOutcome.timeout).2 ≠ none ∧
    (async_update_data PollOutcome.timeout).1.connection_state = false :=
  ⟨by decide,
   c2_update_failed_iff_cycle_fails.2.1 PollOutcome.timeout (by decide)⟩

/-- C3 counterexample: the forwarded platform list does not contain all
three of climate, sensor and binary_sensor — `binary_sensor` is absent
from `PLATFORMS`. -/
theorem c3_platforms_counterexample :
    ¬ ("climate" ∈ PLATFORMS ∧ "sensor" ∈ PLATFORMS ∧
        "binary_sensor" ∈ PLATFORMS) := by
  decide

/-- C3 amended: the platforms forwarded for entry setup are exactly
climate and sensor; binary_sensor is not among them (the binary-sensor
module exists in the repository but is not registered in `PLATFORMS`). -/
theorem c3_platforms_amended :
    PLATFORMS = ["climate", "sensor"] ∧ "climate" ∈ PLATFORMS ∧
    "sensor" ∈ PLATFORMS ∧ "binary_sensor" ∉ PLATFORMS := by
  decide

/-- C4: `hvac_mode` translates the vendor mode enum totally — heat, cool
and auto map to their hub counterparts and every other vendor value,
including vendor off, maps to the hub off value; `temperature_unit`
returns Fahrenheit exactly when the client's `tempunits` equals the vendor
Fahrenheit constant and Celsius for every other value. -/
theorem c4_enum_translation :
    hvac_mode VENSTAR_MODE_HEAT = HVAC_MODE_HEAT ∧
    hvac_mode VENSTAR_MODE_COOL = HVAC_MODE_COOL ∧
    hvac_mode VENSTAR_MODE_AUTO = HVAC_MODE_AUTO ∧
    hvac_mode VENSTAR_MODE_OFF = HVAC_MODE_OFF ∧
    (∀ m : Nat, m ≠ VENSTAR_MODE_HEAT → m ≠ VENSTAR_MODE_COOL →
      m ≠ VENSTAR_MODE_AUTO → hvac_mode m = HVAC_MODE_OFF) ∧
    (∀ u : Nat,
      temperature_unit u = TEMP_FAHRENHEIT ↔ u = VENSTAR_TEMPUNITS_F) ∧
    (∀ u : Nat, u ≠ VENSTAR_TEMPUNITS_F →
      temperature_unit u = TEMP_CELSIUS) := by
  refine ⟨by decide, by decide, by decide, by decide, ?_, ?_, ?_⟩
  · intro m h1 h2 h3
    simp [hvac_mode, h1, h2, h3]
  · intro u
    constructor
    · intro h
      by_contra hu
      simp [temperature_unit, hu] at h
      exact absurd h (by decide)
    · intro h
      simp [temperature_unit, h]
  · intro u h
    simp [temperature_unit, h]

/-- Witness for C4 at the vendor values 7 (an unmapped mode) and 1
(the Celsius unit). -/
theorem c4_enum_translation_witness :
    hvac_mode 7 = HVAC_MODE_OFF ∧ temperature_unit 1 = TEMP_CELSIUS :=
  ⟨c4_enum_translation.2.2.2.2.1 7 (by decide) (by decide) (by decide),
   c4_enum_translation.2.2.2.2.2.2 1 (by decide)⟩

/-- C7: the climate adapter's availability equals the per-device
connection-state boolean exactly, and each sensor, runtime-sensor and
alert binary-sensor availability is false whenever that boolean is
false. -/
theorem c7_availability_reads_connection_state :
    (∀ d : EntryData, thermostat_available d = d.connection_state) ∧
    (∀ (d : EntryData) (st : Option Int), d.connection_state = false →
      sensor_available d st = false) ∧
    (∀ (d : EntryData) (st : Option Int), d.connection_state = false →
      runtime_sensor_available d st = false) ∧
    (∀ (d : EntryData) (b : Option Bool), d.connection_state = false →
      alert_sensor_available d b = false) := by
  refine ⟨fun d => rfl, ?_, ?_, ?_⟩ <;>
    · intro d st h
      simp [sensor_available, runtime_sensor_available,
        alert_sensor_available, h]

/-- Witness for C7: a disconnected entry makes a sensor with a present
reading unavailable. -/
theorem c7_availability_witness :
    sensor_available { connection_state := false } (some 5) = false :=
  c7_availability_reads_connection_state.2.1
    { connection_state := false } (some 5) rfl

/-- C9: `set_preset_mode` with a preset other than away, temperature hold
or none calls no client mutator at all. -/
theorem c9_unknown_preset_calls_no_mutator :
    ∀ (cm : ClientMutators) (preset : String),
      preset ≠ PRESET_AWAY → preset ≠ HOLD_MODE_TEMPERATURE →
      preset ≠ PRESET_NONE → (set_preset_mode cm preset).calls = [] := by
  intro cm preset h1 h2 h3
  simp [set_preset_mode, h1, h2, h3]

/-- Witness for C9 at the unrecognised preset string eco. -/
theorem c9_unknown_preset_calls_no_mutator_witness :
    (set_preset_mode all_true_mutators "eco").calls = [] :=
  c9_unknown_preset_calls_no_mutator all_true_mutators "eco"
    (by decide) (by decide) (by decide)

/-- C5: every climate write path forwards to the corresponding client
mutator and logs a failure exactly when the command's combined success
value is false — the single-call paths when their mutator returns false,
`set_preset_mode` and `set_temperature` when their (possibly
short-circuited or empty) mutator sequence yields false. -/
theorem c5_write_paths_log_iff_failure :
    (∀ (cm : ClientMutators) (f : String),
      (set_fan_mode cm f).loggedFailure = !(set_fan_mode cm f).success) ∧
    (∀ (cm : ClientMutators) (m : String),
      (set_hvac_mode cm m).loggedFailure = !(set_hvac_mode cm m).success) ∧
    (∀ (cm : ClientMutators) (h : Int),
      (set_humidity cm h).loggedFailure = !(set_humidity cm h).success) ∧
    (∀ (cm : ClientMutators) (p : String),
      (set_preset_mode cm p).loggedFailure
        = !(set_preset_mode cm p).success) ∧
    (∀ (c : VenstarClient) (cm : ClientMutators) (op : Option String)
        (tl th t : Option Int),
      (set_temperature c cm op tl th t).loggedFailure
        = !(set_temperature c cm op tl th t).success) := by
  refine ⟨fun cm f => rfl, fun cm m => rfl, fun cm h => rfl, ?_, ?_⟩
  · intro cm p
    simp only [set_preset_mode]
    split
    · rfl
    · split
      · split <;> rfl
      · split
        · split <;> rfl
        · rfl
  · intro c cm op tl th t
    simp only [set_temperature]
    split
    · split <;> rfl
    · rfl

/-- C8: every read-only property of the climate and sensor adapters
leaves the client snapshot unchanged: the client returned alongside each
property value is the client it was read from. -/
theorem c8_getters_preserve_client :
    (∀ c : VenstarClient, (name_prop c).2 = c) ∧
    (∀ c : VenstarClient, (hvac_mode_prop c).2 = c) ∧
    (∀ c : VenstarClient, (hvac_action_prop c).2 = c) ∧
    (∀ c : VenstarClient, (temperature_unit_prop c).2 = c) ∧
    (∀ c : VenstarClient, (fan_mode_prop c).2 = c) ∧
    (∀ c : VenstarClient, (target_temperature_prop c).2 = c) ∧
    (∀ c : VenstarClient, (target_temperature_low_prop c).2 = c) ∧
    (∀ c : VenstarClient, (target_temperature_high_prop c).2 = c) ∧
    (∀ c : VenstarClient, (preset_mode_prop c).2 = c) ∧
    (∀ (c : VenstarClient) (s a : String),
      (sensor_state_prop c s a).2 = c) :=
  ⟨fun _ => rfl, fun _ => rfl, fun _ => rfl, fun _ => rfl, fun _ => rfl,
   fun _ => rfl, fun _ => rfl, fun _ => rfl, fun _ => rfl,
   fun _ _ _ => rfl⟩

/-- Replacing spaces is the identity on a character list without spaces. -/
theorem map_replace_eq_self (l : List Char) (h : ∀ ch ∈ l, ch ≠ ' ') :
    l.map (fun ch => if ch = ' ' then '_' else ch) = l := by
  induction l with
  | nil => rfl
  | cons a t ih =>
    have ha : a ≠ ' ' := h a (List.mem_cons_self a t)
    have ht : ∀ ch ∈ t, ch ≠ ' ' := fun ch hch =>
      h ch (List.mem_cons_of_mem a hch)
    simp [ha, ih ht]

/-- `replace_space_underscore` is the identity on a string without
spaces. -/
theorem replace_space_underscore_eq_self (s : String)
    (h : ∀ ch ∈ s.data, ch ≠ ' ') : replace_space_underscore s = s := by
  unfold replace_space_underscore
  rw [map_replace_eq_self s.data h]

/-- Two right-hand parts of one split list are comparable suffixes. -/
theorem append_eq_suffix_cases (n1 n2 r1 r2 : List Char)
    (h : n1 ++ r1 = n2 ++ r2) : r1 <:+ r2 ∨ r2 <:+ r1 := by
  have h1 : r1 <:+ n2 ++ r2 := by
    rw [← h]
    exact List.suffix_append n1 r1
  exact List.suffix_or_suffix_of_suffix h1 (List.suffix_append n2 r2)

/-- C6 counterexample: the claim's injectivity fails as stated — the
distinct sensor names with a space and with an underscore collide after
the space-to-underscore replacement, giving two distinct
(name, attribute-kind) pairs with the same identifier string. -/
theorem c6_unique_id_counterexample :
    sensor_unique_id "e" "a b" SENSOR_TEMPERATURE
      = sensor_unique_id "e" "a_b" SENSOR_TEMPERATURE ∧
    ("a b", SENSOR_TEMPERATURE) ≠ ("a_b", SENSOR_TEMPERATURE) := by
  constructor
  · rfl
  · decide

/-- C6 amended: the identifier derivation is deterministic (the same
(name, attribute-kind) pair always yields the same string for a given
entry), and distinct pairs yield distinct identifiers provided the sensor
names contain no space characters; the space-to-underscore replacement,
which merges names differing only by a space versus an underscore, is the
only source of collision, because the attribute kinds iterated by the
setup loop (battery, hum, temp — everything in the attribute table except
id) contain no hyphen and none is a suffix of another. -/
theorem c6_unique_id_amended :
    (∀ pfx n a : String,
      sensor_unique_id pfx n a = sensor_unique_id pfx n a) ∧
    (∀ pfx n1 a1 n2 a2 : String,
      (∀ ch ∈ n1.data, ch ≠ ' ') →
      (∀ ch ∈ n2.data, ch ≠ ' ') →
      a1 ∈ SENSOR_ATTRIBUTES_KEYS → a1 ≠ SENSOR_ID →
      a2 ∈ SENSOR_ATTRIBUTES_KEYS → a2 ≠ SENSOR_ID →
      sensor_unique_id pfx n1 a1 = sensor_unique_id pfx n2 a2 →
      n1 = n2 ∧ a1 = a2) := by
  refine ⟨fun _ _ _ => rfl, ?_⟩
  intro pfx n1 a1 n2 a2 hn1 hn2 ha1 ha1id ha2 ha2id h
  have hr1 : replace_space_underscore n1 = n1 :=
    replace_space_underscore_eq_self n1 hn1
  have hr2 : replace_space_underscore n2 = n2 :=
    replace_space_underscore_eq_self n2 hn2
  have ha1' : a1 = SENSOR_BATTERY ∨ a1 = SENSOR_HUMIDITY ∨
      a1 = SENSOR_TEMPERATURE := by
    simp only [SENSOR_ATTRIBUTES_KEYS, List.mem_cons,
      List.mem_singleton] at ha1
    rcases ha1 with h' | h' | h' | h'
    · exact Or.inl h'
    · exact Or.inr (Or.inl h')
    · exact absurd h' ha1id
    · simp at h'
      exact Or.inr (Or.inr h')
  have ha2' : a2 = SENSOR_BATTERY ∨ a2 = SENSOR_HUMIDITY ∨
      a2 = SENSOR_TEMPERATURE := by
    simp only [SENSOR_ATTRIBUTES_KEYS, List.mem_cons,
      List.mem_singleton] at ha2
    rcases ha2 with h' | h' | h' | h'
    · exact Or.inl h'
    · exact Or.inr (Or.inl h')
    · exact absurd h' ha2id
    · simp at h'
      exact Or.inr (Or.inr h')
  have hra1 : replace_space_underscore a1 = a1 := by
    rcases ha1' with h' | h' | h' <;> subst h' <;> rfl
  have hra2 : replace_space_underscore a2 = a2 := by
    rcases ha2' with h' | h' | h' <;> subst h' <;> rfl
  have hd : (sensor_unique_id pfx n1 a1).data
      = (sensor_unique_id pfx n2 a2).data := congrArg String.data h
  have hdash : ("-" : String).data = ['-'] := rfl
  simp only [sensor_unique_id, hr1, hr2, hra1, hra2, String.data_append,
    hdash, List.append_assoc, List.singleton_append] at hd
  have hd' := List.append_cancel_left hd
  have hd'' : n1.data ++ '-' :: a1.data = n2.data ++ '-' :: a2.data := by
    injection hd'
  rcases ha1' with h1 | h1 | h1 <;> rcases ha2' with h2 | h2 | h2 <;>
    subst h1 <;> subst h2 <;>
      first
      | exact ⟨String.ext (List.append_inj' hd'' rfl).1, rfl⟩
      | rcases append_eq_suffix_cases _ _ _ _ hd'' with hs | hs <;>
          exact absurd hs (by decide)

/-- Witness for C6 amended at a concrete name and attribute kind. -/
theorem c6_unique_id_amended_witness :
    sensor_unique_id "e" "Kitchen" "temp"
      = sensor_unique_id "e" "Kitchen" "temp" ∧
    ("Kitchen" : String) = "Kitchen" ∧ ("temp" : String) = "temp" := by
  refine ⟨rfl, ?_⟩
  have := c6_unique_id_amended.2 "e" "Kitchen" "temp" "Kitchen" "temp"
    (by decide) (by decide) (by decide) (by decide) (by decide) (by decide)
    rfl
  exact this

/-- A heat-mode setpoint phase issues exactly one `set_setpoints` call,
carrying the requested temperature and the client's cool setpoint. -/
theorem temp_phase_calls_heat (c : VenstarClient) (cm : ClientMutators)
    (op : Option String) (tl th t : Option Int)
    (heff : effective_mode c op = VENSTAR_MODE_HEAT) :
    (temp_phase c cm op tl th t).2
      = [MutatorCall.setSetpoints t (some c.cooltemp)] := by
  simp [temp_phase, heff]

/-- A cool-mode setpoint phase issues exactly one `set_setpoints` call,
carrying the client's heat setpoint and the requested temperature. -/
theorem temp_phase_calls_cool (c : VenstarClient) (cm : ClientMutators)
    (op : Option String) (tl th t : Option Int)
    (heff : effective_mode c op = VENSTAR_MODE_COOL) :
    (temp_phase c cm op tl th t).2
      = [MutatorCall.setSetpoints (some c.heattemp) t] := by
  simp [temp_phase, heff, VENSTAR_MODE_COOL, VENSTAR_MODE_HEAT]

/-- The calls of `set_temperature` decompose into a (possibly empty)
mode-change part consisting only of `set_mode` calls, optionally followed
by the setpoint phase's calls. -/
theorem set_temperature_calls (c : VenstarClient) (cm : ClientMutators)
    (op : Option String) (tl th t : Option Int) :
    ∃ pre : List MutatorCall,
      (∀ x ∈ pre, ∃ m, x = MutatorCall.setMode m) ∧
      ((set_temperature c cm op tl th t).calls
          = pre ++ (temp_phase c cm op tl th t).2 ∨
        (set_temperature c cm op tl th t).calls = pre) := by
  by_cases hcond : (op_truthy op && (op.bind MODE_MAP != some c.mode)) = true
  · by_cases hs : (set_operation_mode cm (op.getD "")).success = true
    · refine ⟨(set_operation_mode cm (op.getD "")).calls, ?_, Or.inl ?_⟩
      · intro x hx
        simp only [set_operation_mode] at hx
        simp only [List.mem_singleton] at hx
        exact ⟨_, hx⟩
      · simp only [set_temperature]
        rw [if_pos hcond, if_pos hs]
    · refine ⟨(set_operation_mode cm (op.getD "")).calls, ?_, Or.inr ?_⟩
      · intro x hx
        simp only [set_operation_mode] at hx
        simp only [List.mem_singleton] at hx
        exact ⟨_, hx⟩
      · simp only [set_temperature]
        rw [if_pos hcond, if_neg hs]
  · refine ⟨[], fun x hx => absurd hx (List.not_mem_nil x), Or.inl ?_⟩
    simp only [set_temperature]
    rw [if_neg hcond]
    simp

/-- C10: whenever the setpoint phase of `set_temperature` targets heat
mode (after any requested mode change), every `set_setpoints` call it
issues carries the client's current cool-setpoint attribute as the cool
argument; symmetrically, in cool mode the heat argument is the client's
current heat-setpoint attribute. -/
theorem c10_setpoint_preservation :
    ∀ (c : VenstarClient) (cm : ClientMutators) (op : Option String)
      (tl th t : Option Int),
      (effective_mode c op = VENSTAR_MODE_HEAT →
        ∀ hArg cArg : Option Int,
          MutatorCall.setSetpoints hArg cArg ∈
            (set_temperature c cm op tl th t).calls →
          cArg = some c.cooltemp) ∧
      (effective_mode c op = VENSTAR_MODE_COOL →
        ∀ hArg cArg : Option Int,
          MutatorCall.setSetpoints hArg cArg ∈
            (set_temperature c cm op tl th t).calls →
          hArg = some c.heattemp) := by
  intro c cm op tl th t
  constructor
  · intro heff hArg cArg hmem
    obtain ⟨pre, hpre, hcalls⟩ := set_temperature_calls c cm op tl th t
    rcases hcalls with hc | hc
    · rw [hc, List.mem_append] at hmem
      rcases hmem with hm | hm
      · obtain ⟨m, hm'⟩ := hpre _ hm
        exact absurd hm' (by simp)
      · rw [temp_phase_calls_heat c cm op tl th t heff] at hm
        simp only [List.mem_singleton,
          MutatorCall.setSetpoints.injEq] at hm
        exact hm.2
    · rw [hc] at hmem
      obtain ⟨m, hm'⟩ := hpre _ hmem
      exact absurd hm' (by simp)
  · intro heff hArg cArg hmem
    obtain ⟨pre, hpre, hcalls⟩ := set_temperature_calls c cm op tl th t
    rcases hcalls with hc | hc
    · rw [hc, List.mem_append] at hmem
      rcases hmem with hm | hm
      · obtain ⟨m, hm'⟩ := hpre _ hm
        exact absurd hm' (by simp)
      · rw [temp_phase_calls_cool c cm op tl th t heff] at hm
        simp only [List.mem_singleton,
          MutatorCall.setSetpoints.injEq] at hm
        exact hm.1
    · rw [hc] at hmem
      obtain ⟨m, hm'⟩ := hpre _ hmem
      exact absurd hm' (by simp)

/-- Witness for C10: the sample heat-mode client forwards its stored cool
setpoint alongside the requested heat temperature. -/
theorem c10_setpoint_preservation_witness :
    (MutatorCall.setSetpoints (some 68) (some 75) ∈
      (set_temperature sample_client all_true_mutators none none none
        (some 68)).calls) ∧
    (some 75 : Option Int) = some sample_client.cooltemp := by
  refine ⟨by decide, ?_⟩
  exact (c10_setpoint_preservation sample_client all_true_mutators none
    none none (some 68)).1 (by decide) (some 68) (some 75) (by decide)

end Venstar
